import Mathlib

/-!
Verification of the file-service domain core: the `File` entity's lifecycle
state machine, the `FileMetadata` and `FileLocation` self-validating value
objects, and the typed domain errors. Each TypeScript class is shallowly
embedded: validating constructors become `Except`-returning builders, the
throwing transition methods become state-passing functions that return the
post-call entity together with an optional raised error (on a raised error
the entity is the unchanged input, since the source throws before any
assignment), and JavaScript string primitives (`trim`, `includes`,
`startsWith`, `length`) are modelled on the character list.
-/

/-- JavaScript `String.prototype.trim`: drop whitespace from both ends. -/
def jsTrim (s : String) : String :=
  String.mk (((s.toList.dropWhile Char.isWhitespace).reverse.dropWhile
    Char.isWhitespace).reverse)

/-- Helper for substring containment: does `pat` occur in `l` at some position? -/
def subListAt (pat : List Char) : List Char → Bool
  | [] => pat.isEmpty
  | c :: rest => List.isPrefixOf pat (c :: rest) || subListAt pat rest

/-- JavaScript `String.prototype.includes`: substring containment. -/
def strContains (s pat : String) : Bool :=
  subListAt pat.toList s.toList

/-- JavaScript `String.prototype.startsWith`. -/
def strStarts (s pre : String) : Bool :=
  List.isPrefixOf pre.toList s.toList

/-- JavaScript string `length` (code units; code points for our ASCII data). -/
def strLen (s : String) : Nat := s.toList.length

/-- The closed set of domain error kinds, each with its structured payload,
from `src/domain/errors/`. -/
inductive DomainError where
  | fileSizeExceeded (fileSize : Int) (maxSize : Int)
  | invalidFileType (mimeType : String) (allowedTypes : List String)
  | invalidFileName (message : String)
  | invalidFileLocation (message : String)
  | fileAlreadyUploaded (fileId : String)
  | fileAlreadyDeleted (fileId : String)
deriving DecidableEq, Repr

/-- `FileStatus` enum from `src/domain/value-objects/FileStatus.ts`. -/
inductive FileStatus where
  | PENDING
  | UPLOADED
  | DELETED
deriving DecidableEq, Repr

/-- The string value of each `FileStatus` enum member (the TS enum is
string-valued: `PENDING = 'PENDING'`, and so on). -/
def FileStatus.toStr : FileStatus → String
  | .PENDING => "PENDING"
  | .UPLOADED => "UPLOADED"
  | .DELETED => "DELETED"

/-- Recover a `FileStatus` from its string value (the inverse direction used
when a persisted status string is turned back into the enum). -/
def FileStatus.ofStr (s : String) : Option FileStatus :=
  if s = "PENDING" then some .PENDING
  else if s = "UPLOADED" then some .UPLOADED
  else if s = "DELETED" then some .DELETED
  else none

/-- Field record of `FileMetadata` (`src/domain/value-objects/FileMetadata.ts`).
`uploadedAt` is carried as its ISO timestamp string, opaque to every rule. -/
structure FileMetadata where
  fileName : String
  fileSize : Int
  mimeType : String
  ownerId : String
  uploadedAt : String
deriving DecidableEq, Repr

namespace FileMetadata

/-- `FileMetadata.MAX_FILE_SIZE`: 10 * 1024 * 1024 bytes. -/
def MAX_FILE_SIZE : Int := 10 * 1024 * 1024

/-- `FileMetadata.ALLOWED_TYPES`. -/
def ALLOWED_TYPES : List String :=
  ["image/jpeg", "image/png", "application/pdf"]

/-- `validateFileSize`: the size must be strictly positive and at most
`MAX_FILE_SIZE`; both violations raise `FileSizeExceededError` with the
offending size and the limit. -/
def validateFileSize (m : FileMetadata) : Except DomainError Unit :=
  if m.fileSize ≤ 0 then
    .error (.fileSizeExceeded m.fileSize MAX_FILE_SIZE)
  else if m.fileSize > MAX_FILE_SIZE then
    .error (.fileSizeExceeded m.fileSize MAX_FILE_SIZE)
  else
    .ok ()

/-- `validateMimeType`: membership in `ALLOWED_TYPES`, else
`InvalidFileTypeError` with the offending type and the allow-list. -/
def validateMimeType (m : FileMetadata) : Except DomainError Unit :=
  if (ALLOWED_TYPES.contains m.mimeType) = false then
    .error (.invalidFileType m.mimeType ALLOWED_TYPES)
  else
    .ok ()

/-- `validateFileName`: non-empty after trim, at most 255 characters, and free
of `..`, `/` and the null byte. The source's `!this.fileName` truthiness test
is the emptiness disjunct. -/
def validateFileName (m : FileMetadata) : Except DomainError Unit :=
  if m.fileName = "" ∨ strLen (jsTrim m.fileName) = 0 then
    .error (.invalidFileName "File name cannot be empty")
  else if strLen m.fileName > 255 then
    .error (.invalidFileName "File name is too long (max 255 characters)")
  else if strContains m.fileName ".." || strContains m.fileName "/"
      || strContains m.fileName "\x00" then
    .error (.invalidFileName
      "File name contains invalid characters (../, /, or null byte)")
  else
    .ok ()

/-- `validate`: size, then type, then name; the first throw wins. -/
def validate (m : FileMetadata) : Except DomainError Unit :=
  match validateFileSize m with
  | .error e => .error e
  | .ok _ =>
    match validateMimeType m with
    | .error e => .error e
    | .ok _ => validateFileName m

/-- The `FileMetadata` constructor: build the record and self-validate; a
value escapes only if every rule passes. -/
def build (fileName : String) (fileSize : Int)
    (mimeType ownerId uploadedAt : String) : Except DomainError FileMetadata :=
  let m : FileMetadata := ⟨fileName, fileSize, mimeType, ownerId, uploadedAt⟩
  match m.validate with
  | .error e => .error e
  | .ok _ => .ok m

end FileMetadata

/-- `FileLocation` value object (`src/domain/value-objects/FileLocation.ts`). -/
structure FileLocation where
  container : String
  path : String
deriving DecidableEq, Repr

namespace FileLocation

/-- `FileLocation.validate`: container non-empty after trim, path non-empty
after trim, path free of `..`, path not starting with `/` — in that order. -/
def validate (loc : FileLocation) : Except DomainError Unit :=
  if loc.container = "" ∨ strLen (jsTrim loc.container) = 0 then
    .error (.invalidFileLocation "Container cannot be empty")
  else if loc.path = "" ∨ strLen (jsTrim loc.path) = 0 then
    .error (.invalidFileLocation "Path cannot be empty")
  else if strContains loc.path ".." then
    .error (.invalidFileLocation
      "Path cannot contain \"..\" (path traversal attempt)")
  else if strStarts loc.path "/" then
    .error (.invalidFileLocation "Path cannot start with \"/\"")
  else
    .ok ()

/-- The `FileLocation` constructor: build and self-validate. -/
def build (container path : String) : Except DomainError FileLocation :=
  let loc : FileLocation := ⟨container, path⟩
  match loc.validate with
  | .error e => .error e
  | .ok _ => .ok loc

/-- `getFullPath`: container and path joined with one separator. -/
def getFullPath (loc : FileLocation) : String :=
  loc.container ++ "/" ++ loc.path

end FileLocation

/-- `File` entity (`src/domain/entities/file.ts`): identity, two owned value
objects, and the mutable status. -/
structure File where
  id : String
  metadata : FileMetadata
  location : FileLocation
  status : FileStatus
deriving DecidableEq, Repr

namespace File

/-- `File.create`: fresh entity in status `PENDING`. The generated UUID is
taken as a parameter, the generator being outside the domain core. -/
def create (id : String) (metadata : FileMetadata)
    (location : FileLocation) : File :=
  ⟨id, metadata, location, .PENDING⟩

/-- `File.reconstitute`: rebuild from persisted state, trusting id and status. -/
def reconstitute (id : String) (metadata : FileMetadata)
    (location : FileLocation) (status : FileStatus) : File :=
  ⟨id, metadata, location, status⟩

/-- `markAsUploaded` as a state-passing function: the returned `File` is the
entity after the call and the `Option DomainError` the raised error. The
source throws before assigning, so on error the entity is the unchanged
input. -/
def markAsUploaded (f : File) : File × Option DomainError :=
  if f.status = .UPLOADED then
    (f, some (.fileAlreadyUploaded f.id))
  else if f.status = .DELETED then
    (f, some (.fileAlreadyDeleted f.id))
  else
    ({ f with status := .UPLOADED }, none)

/-- `markAsDeleted`, in the same state-passing form. -/
def markAsDeleted (f : File) : File × Option DomainError :=
  if f.status = .DELETED then
    (f, some (.fileAlreadyDeleted f.id))
  else
    ({ f with status := .DELETED }, none)

/-- `canBeDownloaded`: true exactly in status `UPLOADED`. -/
def canBeDownloaded (f : File) : Bool :=
  f.status == .UPLOADED

/-- `belongsTo`: owner check against `metadata.ownerId`. -/
def belongsTo (f : File) (ownerId : String) : Bool :=
  f.metadata.ownerId == ownerId

/-- `equals`: `if (!other) return false; return this.id === other.id` — the
absent argument (`null`/`undefined`) is the `none` case. -/
def equals (f : File) (other : Option File) : Bool :=
  match other with
  | none => false
  | some o => f.id == o.id

/-- Shape of the plain object produced by `File.toObject`. -/
structure FileObject where
  id : String
  fileName : String
  fileSize : Int
  mimeType : String
  ownerId : String
  container : String
  path : String
  status : String
  uploadedAt : String
deriving DecidableEq, Repr

/-- `toObject`: flatten every scalar field; status as its enum string value,
uploadedAt as its ISO string. -/
def toObject (f : File) : FileObject :=
  { id := f.id
    fileName := f.metadata.fileName
    fileSize := f.metadata.fileSize
    mimeType := f.metadata.mimeType
    ownerId := f.metadata.ownerId
    container := f.location.container
    path := f.location.path
    status := f.status.toStr
    uploadedAt := f.metadata.uploadedAt }

end File

/-! ### Sample values for the concrete witnesses -/

/-- A valid metadata value (the example from the source's own doc comments). -/
def sampleMetadata : FileMetadata :=
  ⟨"photo.jpg", 1024000, "image/jpeg", "user-123", "2024-01-15T10:30:00.000Z"⟩

/-- A valid location value. -/
def sampleLocation : FileLocation :=
  ⟨"my-bucket", "uploads/user-123/photo.jpg"⟩

/-- A freshly created entity, status `PENDING`. -/
def samplePending : File := File.create "file-1" sampleMetadata sampleLocation

/-- A rehydrated entity in status `UPLOADED`. -/
def sampleUploaded : File :=
  File.reconstitute "file-2" sampleMetadata sampleLocation .UPLOADED

/-- A rehydrated entity in status `DELETED`. -/
def sampleDeleted : File :=
  File.reconstitute "file-3" sampleMetadata sampleLocation .DELETED

/-! ### Helper lemmas shared by the claim theorems -/

/-- Membership in the allow-list spelled out. -/
theorem mem_allowed (t : String) :
    t ∈ FileMetadata.ALLOWED_TYPES ↔
      (t = "image/jpeg" ∨ t = "image/png" ∨ t = "application/pdf") := by
  simp [FileMetadata.ALLOWED_TYPES]

/-- The source's `!s || s.trim().length === 0` emptiness test collapses to the
trimmed-length test, since the empty string trims to itself. -/
theorem empty_trim (c : String) :
    (c = "" ∨ strLen (jsTrim c) = 0) ↔ strLen (jsTrim c) = 0 := by
  constructor
  · rintro (h | h)
    · subst h; decide
    · exact h
  · exact Or.inr

/-- Full case analysis of `FileMetadata.build`: the validation chain as one
nested conditional, in source order (size, then type, then name). -/
theorem build_cases (n : String) (sz : Int) (t o u : String) :
    FileMetadata.build n sz t o u =
      if sz ≤ 0 ∨ sz > 10485760 then .error (.fileSizeExceeded sz 10485760)
      else if t ∉ FileMetadata.ALLOWED_TYPES then
        .error (.invalidFileType t FileMetadata.ALLOWED_TYPES)
      else if strLen (jsTrim n) = 0 then
        .error (.invalidFileName "File name cannot be empty")
      else if strLen n > 255 then
        .error (.invalidFileName "File name is too long (max 255 characters)")
      else if strContains n ".." || strContains n "/" || strContains n "\x00" then
        .error (.invalidFileName
          "File name contains invalid characters (../, /, or null byte)")
      else .ok ⟨n, sz, t, o, u⟩ := by
  have hmax : FileMetadata.MAX_FILE_SIZE = 10485760 := by decide
  simp only [FileMetadata.build, FileMetadata.validate, FileMetadata.validateFileSize,
    FileMetadata.validateMimeType, FileMetadata.validateFileName, hmax]
  by_cases h1 : sz ≤ 0
  · rw [if_pos h1, if_pos (Or.inl h1)]
  · rw [if_neg h1]
    by_cases h2 : sz > 10485760
    · rw [if_pos h2, if_pos (Or.inr h2)]
    · rw [if_neg h2, if_neg (show ¬(sz ≤ 0 ∨ sz > 10485760) by omega)]
      by_cases h3 : t ∈ FileMetadata.ALLOWED_TYPES
      · have hc : ¬ (FileMetadata.ALLOWED_TYPES.contains t = false) := by
          simp [List.contains, List.elem_eq_mem, h3]
        rw [if_neg hc, if_neg (not_not_intro h3)]
        by_cases hn : strLen (jsTrim n) = 0
        · rw [if_pos (Or.inr hn), if_pos hn]
        · rw [if_neg (fun h => hn ((empty_trim n).mp h)), if_neg hn]
          by_cases hl : strLen n > 255
          · rw [if_pos hl, if_pos hl]
          · rw [if_neg hl, if_neg hl]
            by_cases hb :
                (strContains n ".." || strContains n "/" || strContains n "\x00") = true
            · rw [if_pos hb, if_pos hb]
            · rw [if_neg hb, if_neg hb]
      · have hc : FileMetadata.ALLOWED_TYPES.contains t = false := by
          simp [List.contains, List.elem_eq_mem, h3]
        rw [if_pos hc, if_pos h3]

/-- Full case analysis of `FileLocation.build`: the validation chain as one
nested conditional, in source order (container, path emptiness, traversal,
leading slash). -/
theorem locBuild_cases (c p : String) :
    FileLocation.build c p =
      if strLen (jsTrim c) = 0 then
        .error (.invalidFileLocation "Container cannot be empty")
      else if strLen (jsTrim p) = 0 then
        .error (.invalidFileLocation "Path cannot be empty")
      else if strContains p ".." then
        .error (.invalidFileLocation "Path cannot contain \"..\" (path traversal attempt)")
      else if strStarts p "/" then
        .error (.invalidFileLocation "Path cannot start with \"/\"")
      else .ok ⟨c, p⟩ := by
  simp only [FileLocation.build, FileLocation.validate]
  by_cases hc : strLen (jsTrim c) = 0
  · rw [if_pos (Or.inr hc), if_pos hc]
  · rw [if_neg (fun h => hc ((empty_trim c).mp h)), if_neg hc]
    by_cases hp : strLen (jsTrim p) = 0
    · rw [if_pos (Or.inr hp), if_pos hp]
    · rw [if_neg (fun h => hp ((empty_trim p).mp h)), if_neg hp]
      by_cases ht : strContains p ".." = true
      · rw [if_pos ht, if_pos ht]
      · rw [if_neg ht, if_neg ht]
        by_cases hs : strStarts p "/" = true
        · rw [if_pos hs, if_pos hs]
        · rw [if_neg hs, if_neg hs]

/-! ### Claim theorems -/

/-- Claim C1: the transition operations implement exactly the lifecycle state
machine — `markAsUploaded` from `PENDING` moves to `UPLOADED`; from `UPLOADED`
it fails with the already-uploaded error carrying the id; from `DELETED` it
fails with the already-deleted error carrying the id; `markAsDeleted` from
`PENDING` or `UPLOADED` moves to `DELETED` and from `DELETED` fails with the
already-deleted error carrying the id; hence no operation changes the status
of a `DELETED` entity. -/
theorem file_status_state_machine (f : File) :
    (f.status = .PENDING →
      f.markAsUploaded = ({ f with status := .UPLOADED }, none)) ∧
    (f.status = .UPLOADED →
      f.markAsUploaded = (f, some (.fileAlreadyUploaded f.id))) ∧
    (f.status = .DELETED →
      f.markAsUploaded = (f, some (.fileAlreadyDeleted f.id))) ∧
    (f.status = .PENDING ∨ f.status = .UPLOADED →
      f.markAsDeleted = ({ f with status := .DELETED }, none)) ∧
    (f.status = .DELETED →
      f.markAsDeleted = (f, some (.fileAlreadyDeleted f.id))) ∧
    (f.status = .DELETED →
      (f.markAsUploaded).1.status = .DELETED ∧
      (f.markAsDeleted).1.status = .DELETED) := by
  obtain ⟨id, md, loc, st⟩ := f
  cases st <;> simp [File.markAsUploaded, File.markAsDeleted]

/-- Concrete instance of C1 at each status. -/
theorem file_status_state_machine_witness :
    samplePending.markAsUploaded = ({ samplePending with status := .UPLOADED }, none) ∧
    sampleUploaded.markAsUploaded =
      (sampleUploaded, some (.fileAlreadyUploaded sampleUploaded.id)) ∧
    sampleDeleted.markAsUploaded =
      (sampleDeleted, some (.fileAlreadyDeleted sampleDeleted.id)) ∧
    samplePending.markAsDeleted = ({ samplePending with status := .DELETED }, none) ∧
    sampleDeleted.markAsDeleted =
      (sampleDeleted, some (.fileAlreadyDeleted sampleDeleted.id)) :=
  ⟨(file_status_state_machine samplePending).1 rfl,
   (file_status_state_machine sampleUploaded).2.1 rfl,
   (file_status_state_machine sampleDeleted).2.2.1 rfl,
   (file_status_state_machine samplePending).2.2.2.1 (Or.inl rfl),
   (file_status_state_machine sampleDeleted).2.2.2.2.1 rfl⟩

/-- Claim C2: transition failures are atomic — whenever `markAsUploaded` or
`markAsDeleted` raises an error, the entity after the call is exactly the
entity before it (status, id, metadata and location all unchanged). -/
theorem transition_failure_atomic (f : File) (e : DomainError) :
    ((f.markAsUploaded).2 = some e →
      (f.markAsUploaded).1.status = f.status ∧ (f.markAsUploaded).1 = f) ∧
    ((f.markAsDeleted).2 = some e →
      (f.markAsDeleted).1.status = f.status ∧ (f.markAsDeleted).1 = f) := by
  obtain ⟨id, md, loc, st⟩ := f
  cases st <;> simp [File.markAsUploaded, File.markAsDeleted]

/-- Concrete instance of C2: a failing re-upload and a failing re-delete leave
the entity untouched. -/
theorem transition_failure_atomic_witness :
    (sampleUploaded.markAsUploaded).1 = sampleUploaded ∧
    (sampleDeleted.markAsDeleted).1 = sampleDeleted :=
  ⟨((transition_failure_atomic sampleUploaded
      (.fileAlreadyUploaded sampleUploaded.id)).1 rfl).2,
   ((transition_failure_atomic sampleDeleted
      (.fileAlreadyDeleted sampleDeleted.id)).2 rfl).2⟩

/-- Claim C3: metadata construction fails with a size violation carrying the
exact offending size and the 10,485,760 limit for every `fileSize ≤ 0` or
`> 10,485,760` (one error kind for both directions), and raises no size
violation for any `fileSize` with `0 < fileSize ≤ 10,485,760`. -/
theorem metadata_size_rule (n : String) (sz : Int) (t o u : String) :
    ((sz ≤ 0 ∨ sz > 10485760) →
      FileMetadata.build n sz t o u = .error (.fileSizeExceeded sz 10485760)) ∧
    (0 < sz → sz ≤ 10485760 →
      ∀ a b, FileMetadata.build n sz t o u ≠ .error (.fileSizeExceeded a b)) := by
  rw [build_cases]
  constructor
  · intro h
    rw [if_pos h]
  · intro h1 h2 a b
    rw [if_neg (show ¬(sz ≤ 0 ∨ sz > 10485760) by omega)]
    split_ifs <;> simp

/-- Concrete instance of C3: size 0 is rejected with the exact payload, size
1,024,000 raises no size violation. -/
theorem metadata_size_rule_witness :
    FileMetadata.build "photo.jpg" 0 "image/jpeg" "user-123" "t" =
      .error (.fileSizeExceeded 0 10485760) ∧
    FileMetadata.build "photo.jpg" 1024000 "image/jpeg" "user-123" "t" ≠
      .error (.fileSizeExceeded 1024000 10485760) :=
  ⟨(metadata_size_rule "photo.jpg" 0 "image/jpeg" "user-123" "t").1
      (Or.inl (by decide)),
   (metadata_size_rule "photo.jpg" 1024000 "image/jpeg" "user-123" "t").2
      (by decide) (by decide) 1024000 10485760⟩

/-- Claim C4: metadata construction fails with a type violation carrying the
offending mime type and the full allow-list exactly when the size is valid and
the mime type is outside the allow-list; on input violating both the size and
the type rule, the size error fires first; and any type violation raised
carries exactly the offending mime type and the allow-list. -/
theorem metadata_type_rule (n : String) (sz : Int) (t o u : String) :
    (FileMetadata.build n sz t o u =
        .error (.invalidFileType t FileMetadata.ALLOWED_TYPES) ↔
      (0 < sz ∧ sz ≤ 10485760 ∧ t ∉ FileMetadata.ALLOWED_TYPES)) ∧
    ((sz ≤ 0 ∨ sz > 10485760) → t ∉ FileMetadata.ALLOWED_TYPES →
      FileMetadata.build n sz t o u = .error (.fileSizeExceeded sz 10485760)) ∧
    (∀ a l, FileMetadata.build n sz t o u = .error (.invalidFileType a l) →
      a = t ∧ l = FileMetadata.ALLOWED_TYPES) := by
  rw [build_cases]
  refine ⟨⟨?_, ?_⟩, ?_, ?_⟩
  · intro h
    by_cases h1 : sz ≤ 0 ∨ sz > 10485760
    · rw [if_pos h1] at h; exact absurd h (by simp)
    · rw [if_neg h1] at h
      by_cases h3 : t ∉ FileMetadata.ALLOWED_TYPES
      · exact ⟨by omega, by omega, h3⟩
      · rw [if_neg h3] at h
        split_ifs at h <;> simp at h
  · rintro ⟨ha, hb, hc⟩
    rw [if_neg (show ¬(sz ≤ 0 ∨ sz > 10485760) by omega), if_pos hc]
  · intro h1 h3
    rw [if_pos h1]
  · intro a l h
    by_cases h1 : sz ≤ 0 ∨ sz > 10485760
    · rw [if_pos h1] at h; exact absurd h (by simp)
    · rw [if_neg h1] at h
      by_cases h3 : t ∉ FileMetadata.ALLOWED_TYPES
      · rw [if_pos h3] at h
        simp only [Except.error.injEq, DomainError.invalidFileType.injEq] at h
        exact ⟨h.1.symm, h.2.symm⟩
      · rw [if_neg h3] at h
        split_ifs at h <;> simp at h

/-- Concrete instance of C4: `text/plain` with a valid size is rejected as a
type violation carrying the allow-list; `text/plain` with size 0 is rejected
as a size violation (size fires first). -/
theorem metadata_type_rule_witness :
    FileMetadata.build "photo.jpg" 1024000 "text/plain" "user-123" "t" =
      .error (.invalidFileType "text/plain" FileMetadata.ALLOWED_TYPES) ∧
    FileMetadata.build "photo.jpg" 0 "text/plain" "user-123" "t" =
      .error (.fileSizeExceeded 0 10485760) :=
  ⟨(metadata_type_rule "photo.jpg" 1024000 "text/plain" "user-123" "t").1.mpr
      ⟨by decide, by decide, by decide⟩,
   (metadata_type_rule "photo.jpg" 0 "text/plain" "user-123" "t").2.1
      (Or.inl (by decide)) (by decide)⟩

/-- Claim C5: metadata construction fails with a name violation (carrying a
reason message) exactly when the size and mime type are valid and the file
name is empty or whitespace-only after trimming, longer than 255 characters,
or contains `..`, `/` or a null byte; a name with none of these defects raises
no name violation. -/
theorem metadata_name_rule (n : String) (sz : Int) (t o u : String) :
    (∃ msg, FileMetadata.build n sz t o u = .error (.invalidFileName msg)) ↔
      (0 < sz ∧ sz ≤ 10485760 ∧ t ∈ FileMetadata.ALLOWED_TYPES ∧
        (strLen (jsTrim n) = 0 ∨ strLen n > 255 ∨
          (strContains n ".." || strContains n "/" || strContains n "\x00") = true)) := by
  rw [build_cases]
  constructor
  · rintro ⟨msg, h⟩
    by_cases h1 : sz ≤ 0 ∨ sz > 10485760
    · rw [if_pos h1] at h; exact absurd h (by simp)
    · rw [if_neg h1] at h
      by_cases h3 : t ∉ FileMetadata.ALLOWED_TYPES
      · rw [if_pos h3] at h; exact absurd h (by simp)
      · rw [if_neg h3] at h
        refine ⟨by omega, by omega, not_not.mp h3, ?_⟩
        by_cases hn : strLen (jsTrim n) = 0
        · exact Or.inl hn
        · rw [if_neg hn] at h
          by_cases hl : strLen n > 255
          · exact Or.inr (Or.inl hl)
          · rw [if_neg hl] at h
            by_cases hb :
                (strContains n ".." || strContains n "/" || strContains n "\x00") = true
            · exact Or.inr (Or.inr hb)
            · rw [if_neg hb] at h; exact absurd h (by simp)
  · rintro ⟨h1, h2, h3, hbad⟩
    rw [if_neg (show ¬(sz ≤ 0 ∨ sz > 10485760) by omega), if_neg (not_not_intro h3)]
    by_cases hn : strLen (jsTrim n) = 0
    · exact ⟨"File name cannot be empty", by rw [if_pos hn]⟩
    · rw [if_neg hn]
      by_cases hl : strLen n > 255
      · exact ⟨"File name is too long (max 255 characters)", by rw [if_pos hl]⟩
      · rw [if_neg hl]
        by_cases hb :
            (strContains n ".." || strContains n "/" || strContains n "\x00") = true
        · exact ⟨"File name contains invalid characters (../, /, or null byte)",
            by rw [if_pos hb]⟩
        · rcases hbad with h | h | h
          · exact absurd h hn
          · exact absurd h hl
          · exact absurd h hb

/-- Concrete instance of C5: a name containing `/` is rejected as a name
violation; `photo.jpg` raises none. -/
theorem metadata_name_rule_witness :
    (∃ msg, FileMetadata.build "a/b.jpg" 1024000 "image/jpeg" "user-123" "t" =
      .error (.invalidFileName msg)) ∧
    ¬ (∃ msg, FileMetadata.build "photo.jpg" 1024000 "image/jpeg" "user-123" "t" =
      .error (.invalidFileName msg)) :=
  ⟨(metadata_name_rule "a/b.jpg" 1024000 "image/jpeg" "user-123" "t").mpr
      ⟨by decide, by decide, by decide, Or.inr (Or.inr (by decide))⟩,
   fun hex =>
     (by decide :
       ¬ ((0:Int) < 1024000 ∧ (1024000:Int) ≤ 10485760 ∧
         "image/jpeg" ∈ FileMetadata.ALLOWED_TYPES ∧
         (strLen (jsTrim "photo.jpg") = 0 ∨ strLen "photo.jpg" > 255 ∨
           (strContains "photo.jpg" ".." || strContains "photo.jpg" "/"
             || strContains "photo.jpg" "\x00") = true)))
     ((metadata_name_rule "photo.jpg" 1024000 "image/jpeg" "user-123" "t").mp hex)⟩

/-- Claim C6: location construction fails exactly when the container is empty
after trim, the path is empty after trim, the path contains `..`, or the path
starts with `/`; the checks run in the order container, path emptiness,
traversal, leading slash (which fixes the reported reason on multiply-invalid
input); and on a pair violating no rule, construction succeeds and stores
container and path unchanged. -/
theorem location_rules (c p : String) :
    (FileLocation.build c p = .ok ⟨c, p⟩ ↔
      (¬ strLen (jsTrim c) = 0 ∧ ¬ strLen (jsTrim p) = 0 ∧
        ¬ strContains p ".." = true ∧ ¬ strStarts p "/" = true)) ∧
    (strLen (jsTrim c) = 0 →
      FileLocation.build c p = .error (.invalidFileLocation "Container cannot be empty")) ∧
    (¬ strLen (jsTrim c) = 0 → strLen (jsTrim p) = 0 →
      FileLocation.build c p = .error (.invalidFileLocation "Path cannot be empty")) ∧
    (¬ strLen (jsTrim c) = 0 → ¬ strLen (jsTrim p) = 0 → strContains p ".." = true →
      FileLocation.build c p =
        .error (.invalidFileLocation "Path cannot contain \"..\" (path traversal attempt)")) ∧
    (¬ strLen (jsTrim c) = 0 → ¬ strLen (jsTrim p) = 0 → ¬ strContains p ".." = true →
      strStarts p "/" = true →
      FileLocation.build c p =
        .error (.invalidFileLocation "Path cannot start with \"/\"")) := by
  rw [locBuild_cases]
  refine ⟨⟨?_, ?_⟩, ?_, ?_, ?_, ?_⟩
  · intro h
    by_cases hc : strLen (jsTrim c) = 0
    · rw [if_pos hc] at h; exact absurd h (by simp)
    · rw [if_neg hc] at h
      by_cases hp : strLen (jsTrim p) = 0
      · rw [if_pos hp] at h; exact absurd h (by simp)
      · rw [if_neg hp] at h
        by_cases ht : strContains p ".." = true
        · rw [if_pos ht] at h; exact absurd h (by simp)
        · rw [if_neg ht] at h
          by_cases hs : strStarts p "/" = true
          · rw [if_pos hs] at h; exact absurd h (by simp)
          · exact ⟨hc, hp, ht, hs⟩
  · rintro ⟨hc, hp, ht, hs⟩
    rw [if_neg hc, if_neg hp, if_neg ht, if_neg hs]
  · intro hc
    rw [if_pos hc]
  · intro hc hp
    rw [if_neg hc, if_pos hp]
  · intro hc hp ht
    rw [if_neg hc, if_neg hp, if_pos ht]
  · intro hc hp ht hs
    rw [if_neg hc, if_neg hp, if_neg ht, if_pos hs]

/-- Concrete instance of C6: a valid pair is stored unchanged; a traversal
path, an empty container and a leading-slash path are each rejected with the
reason fixed by the check order. -/
theorem location_rules_witness :
    FileLocation.build "my-bucket" "uploads/photo.jpg" =
      .ok ⟨"my-bucket", "uploads/photo.jpg"⟩ ∧
    FileLocation.build "my-bucket" "a/../b" =
      .error (.invalidFileLocation "Path cannot contain \"..\" (path traversal attempt)") ∧
    FileLocation.build "  " "x" =
      .error (.invalidFileLocation "Container cannot be empty") ∧
    FileLocation.build "my-bucket" "/etc/passwd" =
      .error (.invalidFileLocation "Path cannot start with \"/\"") :=
  ⟨(location_rules "my-bucket" "uploads/photo.jpg").1.mpr
      ⟨by decide, by decide, by decide, by decide⟩,
   (location_rules "my-bucket" "a/../b").2.2.2.1 (by decide) (by decide) (by decide),
   (location_rules "  " "x").2.1 (by decide),
   (location_rules "my-bucket" "/etc/passwd").2.2.2.2 (by decide) (by decide)
      (by decide) (by decide)⟩

/-- Claim C7: round-trip through the serialization view — reconstituting with
the id and status taken from an entity's `toObject` view, together with its
metadata and location, yields an entity that `equals` the original and whose
status matches exactly. -/
theorem toObject_reconstitute_round_trip (f : File) :
    ∃ s, FileStatus.ofStr (File.toObject f).status = some s ∧
      File.equals f
        (some (File.reconstitute (File.toObject f).id f.metadata f.location s)) = true ∧
      (File.reconstitute (File.toObject f).id f.metadata f.location s).status
        = f.status := by
  obtain ⟨id, md, loc, st⟩ := f
  refine ⟨st, ?_, ?_, rfl⟩
  · cases st <;> rfl
  · simp [File.equals, File.reconstitute, File.toObject]

/-- Claim C8: entity equality is by identifier only — `equals` on two files is
true exactly when their ids agree, whatever their status, metadata, location
or timestamps. -/
theorem equals_iff_id_eq (a b : File) :
    a.equals (some b) = true ↔ a.id = b.id := by
  simp [File.equals]

/-- Concrete instance of C8: two files sharing an id but differing in status
compare equal. -/
theorem equals_iff_id_eq_witness :
    samplePending.equals
      (some (File.reconstitute "file-1" sampleMetadata sampleLocation .DELETED)) = true :=
  (equals_iff_id_eq samplePending
    (File.reconstitute "file-1" sampleMetadata sampleLocation .DELETED)).mpr rfl

/-- Claim C9: calling `equals` with an absent argument returns false rather
than failing. -/
theorem equals_none_false (f : File) : f.equals none = false := rfl

/-- Claim C10: the traversal and leading-slash checks run on the raw untrimmed
path while only the emptiness checks trim — so the path ` /secret`
(whitespace, then a slash) is accepted, a container ending in `/` is accepted,
the stored path begins with whitespace-then-slash, and `getFullPath` contains
consecutive `/` characters. -/
theorem location_raw_path_checks :
    FileLocation.build "bucket/" " /secret" = .ok ⟨"bucket/", " /secret"⟩ ∧
    (" /secret").toList.take 2 = [' ', '/'] ∧
    strStarts (jsTrim " /secret") "/" = true ∧
    strContains (FileLocation.getFullPath ⟨"bucket/", " /secret"⟩) "//" = true :=
  ⟨by rfl, by decide, by decide, by decide⟩
